import Mathlib

/-
Verification development for the trust-root synchronization engine of a
sigstore-python work-in-progress repository.

Shallow embedding conventions:
  - File contents are byte lists (`Bytes`); filesystem paths are lists of
    path segments (`FPath`).
  - The filesystem is an association list from paths to contents plus a
    list of created directories; a write shadows earlier entries
    (read finds the most recent write first).
  - Python exceptions and `sys.exit` are modelled by the `PyError` type;
    a function that can raise returns the final filesystem state together
    with an optional error, or an `Except PyError` result.
  - `hashlib.sha256(b).hexdigest()` is abstracted as an explicit function
    argument `sha256hex : Bytes → String`; the embedded code is parametric
    in it, exactly as the control flow of the source depends only on the
    digest value, never on hash internals.
  - `Path.home()` is the symbolic segment "HOME".
-/

set_option autoImplicit false

namespace Sigstore

abbrev Bytes := List Nat

abbrev FPath := List String

/-- Filesystem model: files as an association list from path to contents
(most recent write first) and the list of directories created so far. -/
structure FS where
  files : List (FPath × Bytes)
  dirs : List FPath
deriving DecidableEq

/-- Does a file exist at path `p`. -/
def FS.fileExists (fs : FS) (p : FPath) : Bool :=
  fs.files.any (fun e => e.1 == p)

/-- Read the contents of the file at path `p`, if present. -/
def FS.read (fs : FS) (p : FPath) : Option Bytes :=
  (fs.files.find? (fun e => e.1 == p)).map (fun e => e.2)

/-- Write (or overwrite) the file at path `p` with contents `b`. -/
def FS.writeFile (fs : FS) (p : FPath) (b : Bytes) : FS :=
  ⟨(p, b) :: fs.files, fs.dirs⟩

/-- Record the creation of directory `p` (mode bits are not modelled;
`exist_ok=True` makes creation idempotent in effect, and the claims only
need to observe whether any creation happened). -/
def FS.mkdir (fs : FS) (p : FPath) : FS :=
  ⟨fs.files, p :: fs.dirs⟩

/-- Python-level failures surfaced by the embedded code. -/
inductive PyError
  | fileNotFoundError
  | systemExit (code : Nat)
  | attributeError
  | deserializationError
  | typeError
deriving DecidableEq

/-- Path.home() / ".sigstore" / "root", the fixed directory used by the
`Store` helpers and as the default TUF directory. -/
def sigstoreRootDir : FPath := ["HOME", ".sigstore", "root"]

/-- SIGSTORE_TARGETS from sigstore/_store/__init__.py. -/
def SIGSTORE_TARGETS : List String :=
  ["ctfe.pub",
   "ctfe.staging.pub",
   "fulcio_intermediate.crt.pem",
   "fulcio_intermediate.crt.staging.pem",
   "fulcio.crt.pem",
   "fulcio.crt.staging.pem",
   "rekor.pub",
   "rekor.staging.pub"]

/-- EXPECTED_ROOT_DIGEST from sigstore/_trust_root.py (pinned hex digest of
the bundled 4.root.json). -/
def EXPECTED_ROOT_DIGEST : String :=
  "8e34a5c236300b92d0833b205f814d4d7206707fc870d3ff6dcf49f10e56ca0a"

/-- Store._read_binary (sigstore/_store/__init__.py, lines 92-102): reads
`Path.home() / ".sigstore" / "root" / "targets" / cert_name` as bytes.
`open` on a missing file raises FileNotFoundError. Note the fixed home
path: the function never consults any caller-chosen cache root. -/
def Store._read_binary (fs : FS) (cert_name : String) : Except PyError Bytes :=
  match fs.read (sigstoreRootDir ++ ["targets", cert_name]) with
  | some b => Except.ok b
  | none => Except.error PyError.fileNotFoundError

/-- Store._read_metadata (sigstore/_store/__init__.py, lines 81-90): reads
`Path.home() / ".sigstore" / "root" / "metadata" / metadata_name`. This is
the helper that actually reads the cached copy of the bundled root
document; `_prepare_local_cache` calls `_read_binary` instead. -/
def Store._read_metadata (fs : FS) (metadata_name : String) : Except PyError Bytes :=
  match fs.read (sigstoreRootDir ++ ["metadata", metadata_name]) with
  | some b => Except.ok b
  | none => Except.error PyError.fileNotFoundError

/-- Lines 82-89 of sigstore/_trust_root.py: read `root.json` through
`Store._read_binary` (hence from the fixed home `targets/` directory),
hash it, and on a digest mismatch print to stderr and `sys.exit(1)`.
Returns the raised error, if any; the check never writes to the
filesystem. -/
def rootDigestCheck (sha256hex : Bytes → String) (fs : FS) : Option PyError :=
  match Store._read_binary fs "root.json" with
  | Except.error e => some e
  | Except.ok bootstrap_root =>
    if sha256hex bootstrap_root == EXPECTED_ROOT_DIGEST then none
    else some (PyError.systemExit 1)

/-- TrustUpdater._prepare_local_cache (sigstore/_trust_root.py, lines
54-89). If `tuf_dir/metadata/root.json` does not exist, it creates
`tuf_dir`, `metadata/` and `targets/` and copies the bundled `root.json`
resource into `metadata/` and every SIGSTORE_TARGETS resource into
`targets/` (`resource` gives the bytes of each bundled file). It then runs
the digest check of `rootDigestCheck` on the resulting state. The result
is the final filesystem state paired with the raised error, if any. -/
def TrustUpdater._prepare_local_cache (sha256hex : Bytes → String)
    (resource : String → Bytes) (tuf_dir : FPath) (fs : FS) : FS × Option PyError :=
  let metadata_dir := tuf_dir ++ ["metadata"]
  let targets_dir := tuf_dir ++ ["targets"]
  let tuf_root := metadata_dir ++ ["root.json"]
  let fs1 :=
    if fs.fileExists tuf_root then fs
    else
      let fsA := ((fs.mkdir tuf_dir).mkdir metadata_dir).mkdir targets_dir
      let fsB := fsA.writeFile (metadata_dir ++ ["root.json"]) (resource "root.json")
      SIGSTORE_TARGETS.foldl
        (fun f t => f.writeFile (targets_dir ++ [t]) (resource t)) fsB
  (fs1, rootDigestCheck sha256hex fs1)

/-- State of the cached `metadata/timestamp.json` file: absent, present but
unparseable, or parseable with the given expiry instant (times are natural
numbers; the source uses UTC datetimes). -/
inductive TimestampFile
  | absent
  | corrupt
  | valid (expires : Nat)
deriving DecidableEq

/-- Signed.is_expired from python-tuf, applied by `_should_update`:
expired iff the reference time `now` is at or after `expires`. -/
def is_expired (expires now : Nat) : Bool :=
  expires ≤ now

/-- TrustUpdater._should_update (sigstore/_trust_root.py, lines 91-105):
true if `metadata/timestamp.json` does not exist; otherwise parse it
(`Metadata.from_file` raises a deserialization error on unparseable
contents, which propagates uncaught) and return true iff it is expired. -/
def TrustUpdater._should_update (ts : TimestampFile) (now : Nat) :
    Except PyError Bool :=
  match ts with
  | TimestampFile.absent => Except.ok true
  | TimestampFile.corrupt => Except.error PyError.deserializationError
  | TimestampFile.valid e => Except.ok (is_expired e now)

/-- Target information as returned by the Metadata Client
(`updater.get_targetinfo`): the target path plus its expected content
digest (abstracted to a natural number). -/
structure TargetInfo where
  path : String
  digest : Nat
deriving DecidableEq

/-- The Metadata Client boundary (python-tuf `Updater`), opaque per the
design: target lookup and the local-cache check. `download_target` is pure
effect and is recorded in the results of the embedded code instead. -/
structure Client where
  get_targetinfo : String → Option TargetInfo
  find_cached_target : TargetInfo → Option String

/-- One delegation entry of the top-level Targets role
(`signed.delegations`): a role name and its declared path patterns. -/
structure DelegatedRole where
  name : String
  paths : List String
deriving DecidableEq

/-- The parsed top-level `targets.json` after a successful refresh:
the target identifiers it lists, its delegations, and for each delegated
role name the target identifiers listed by that role document. -/
structure TargetsMeta where
  targets : List String
  delegations : List DelegatedRole
  roleTargets : String → List String

/-- The hard-coded usage list iterated by `update`
(sigstore/_trust_root.py, line 182). -/
def USAGES : List String := ["fulcio", "rekor", "ct_log", "custom_key_material"]

/-- The locally scoped _fetch_all_targets of TrustUpdater.update
(sigstore/_trust_root.py, lines 155-166). For each target identifier:
`get_targetinfo`; if it returns nothing, print to stderr and `sys.exit(1)`;
otherwise `find_cached_target`, and only when no cached copy is found,
`download_target`. Returns the list of downloaded TargetInfo records in
order, together with the error that stopped the loop, if any (downloads
made before the error point stand). -/
def _fetch_all_targets (c : Client) : List String → List TargetInfo × Option PyError
  | [] => ([], none)
  | t :: rest =>
    match c.get_targetinfo t with
    | none => ([], some (PyError.systemExit 1))
    | some target_info =>
      match c.find_cached_target target_info with
      | some _ => _fetch_all_targets c rest
      | none =>
        let r := _fetch_all_targets c rest
        (target_info :: r.1, r.2)

/-- Observable outcome of one `update` call: whether `updater.refresh()`
(the network metadata refresh) was invoked, which targets were downloaded
(each download is a network fetch and a cache write), and the error that
ended the call, if any. An error with `refreshed = false` and
`downloads = []` left the cache untouched and made no network call. -/
structure UpdateResult where
  refreshed : Bool
  downloads : List TargetInfo
  error : Option PyError
deriving DecidableEq

/-- TrustUpdater.update (sigstore/_trust_root.py, lines 107-195).
Control flow of the source:
  1. `if not self._should_update(): return` — an unexpired cached
     timestamp returns immediately, before the `Updater` is even built;
     a parse failure inside `_should_update` propagates uncaught.
  2. `updater.refresh()` — the network refresh; its FIXME notes that
     failure is unhandled, and this embedding models the successful case,
     with `targets_md` the post-refresh parse of `metadata/targets.json`.
     (The interactive breakpoint on line 169 is a debugging hook, out of
     scope per the design, and is not part of the embedding.)
  3. `_fetch_all_targets(targets_md.signed.targets)` fetches every target
     listed by the top-level Targets role.
  4. The usage loop then evaluates `targets_md.delegations` in its first
     iteration; `Metadata` has no attribute `delegations` (the correct
     access would be `targets_md.signed.delegations`; the TODO comment on
     line 186 of the source records this AttributeError), so the call
     raises AttributeError before any delegated role is examined and
     `targets_md.delegations`, `get_roles_for_target` and `roleTargets`
     are never consulted. -/
def TrustUpdater.update (c : Client) (ts : TimestampFile) (now : Nat)
    (targets_md : TargetsMeta) : UpdateResult :=
  match TrustUpdater._should_update ts now with
  | Except.error e => ⟨false, [], some e⟩
  | Except.ok false => ⟨false, [], none⟩
  | Except.ok true =>
    let r := _fetch_all_targets c targets_md.targets
    match r.2 with
    | some err => ⟨true, r.1, some err⟩
    | none => ⟨true, r.1, some PyError.attributeError⟩

/-- Python values that can be passed to `TrustUpdater.is_created`
positionally: `None` (the default), a string, or the `TrustUpdater` class
object itself (bound by the classmethod descriptor). -/
inductive PyValue
  | pynone
  | pystr (s : String)
  | pyclass
deriving DecidableEq

/-- Python truthiness for the values above: `None` and the empty string
are falsy, any class object is truthy. -/
def truthy : PyValue → Bool
  | PyValue.pynone => false
  | PyValue.pystr s => !(s == "")
  | PyValue.pyclass => true

/-- Conversion of a Python string path to segments, the effect of
`Path(s)` on a string argument. -/
def pathOfString (s : String) : FPath :=
  s.splitOn "/"

/-- The function body of TrustUpdater.is_created (sigstore/_trust_root.py,
lines 197-209), applied to whatever landed in its single declared
parameter `tuf_dir`: `if tuf_dir: _tuf_dir = Path(tuf_dir) else Path.home()
/ ".sigstore" / "root"`, then test whether `metadata/timestamp.json`
exists below it. `Path(x)` raises TypeError when `x` is neither a string
nor a path-like object — in particular when it is a class object. -/
def is_created_body (tuf_dir : PyValue) (fs : FS) : Except PyError Bool :=
  match
    (if truthy tuf_dir then
      match tuf_dir with
      | PyValue.pystr s => Except.ok (pathOfString s)
      | _ => Except.error PyError.typeError
    else Except.ok sigstoreRootDir) with
  | Except.error e => Except.error e
  | Except.ok dir => Except.ok (fs.fileExists (dir ++ ["metadata", "timestamp.json"]))

/-- TrustUpdater.is_created invoked through the class with the given
positional argument list. The source declares it a `@classmethod` whose
only parameter is `tuf_dir` (there is no `cls` parameter), so the
descriptor protocol passes the class object as the first positional
argument: a zero-argument call binds `tuf_dir := TrustUpdater`, and a call
with one caller argument passes two positional arguments to a one-parameter
function, a TypeError at call time. -/
def TrustUpdater.is_created (args : List PyValue) (fs : FS) : Except PyError Bool :=
  match args with
  | [] => is_created_body PyValue.pyclass fs
  | _ :: _ => Except.error PyError.typeError

/-
Concrete fixtures used to evaluate the embedded code on specific inputs.
-/

/-- Empty filesystem: a fresh machine with no cache and no home store. -/
def emptyFS : FS := ⟨[], []⟩

/-- Toy hash whose value always equals the pinned digest; the embedded
code is parametric in the hash, so any instance is admissible. -/
def hashPinned : Bytes → String := fun _ => EXPECTED_ROOT_DIGEST

/-- Bundled resources with empty contents. -/
def resourceEmpty : String → Bytes := fun _ => []

/-- Home store in which both `targets/root.json` and `metadata/root.json`
exist (with empty contents) under the default sigstore root directory. -/
def fsWithRoot : FS :=
  ⟨[(sigstoreRootDir ++ ["targets", "root.json"], []),
    (sigstoreRootDir ++ ["metadata", "root.json"], [])], []⟩

/-- Client that knows no targets and caches nothing. -/
def clientTriv : Client := ⟨fun _ => none, fun _ => none⟩

/-- Targets metadata with no targets and no delegations. -/
def mdTriv : TargetsMeta := ⟨[], [], fun _ => []⟩

/-- Client for the delegation-walk scenario: it resolves the top-level
target `unrelated.pub` and the delegated target `fulcio/cert.pem`, and
has nothing cached. -/
def clientDeleg : Client :=
  ⟨fun t =>
    if t == "unrelated.pub" then some ⟨"unrelated.pub", 11⟩
    else if t == "fulcio/cert.pem" then some ⟨"fulcio/cert.pem", 22⟩
    else none,
   fun _ => none⟩

/-- Targets metadata whose top-level listing has one target outside every
delegation pattern, and one delegated role matching the `fulcio` usage
pattern that lists `fulcio/cert.pem`. -/
def mdDeleg : TargetsMeta :=
  ⟨["unrelated.pub"],
   [⟨"fulcio-role", ["fulcio/**/*"]⟩],
   fun r => if r == "fulcio-role" then ["fulcio/cert.pem"] else []⟩

/-- Client for the overlapping-delegations scenario: both delegations list
the same identifier; the broad role carries digest 33, the specific role
digest 44 (the client reports the broad one, but `update` never consults
either). -/
def clientOverlap : Client :=
  ⟨fun t =>
    if t == "fulcio/prod/overlap.pem" then some ⟨"fulcio/prod/overlap.pem", 33⟩
    else none,
   fun _ => none⟩

/-- Targets metadata with two delegated roles whose patterns both match
the `fulcio` usage: a broad `fulcio/**/*` role and a more specific
`fulcio/prod/*` role, listing the same overlapping identifier. -/
def mdOverlap : TargetsMeta :=
  ⟨[],
   [⟨"fulcio-broad", ["fulcio/**/*"]⟩, ⟨"fulcio-prod", ["fulcio/prod/*"]⟩],
   fun r =>
    if r == "fulcio-broad" then ["fulcio/prod/overlap.pem"]
    else if r == "fulcio-prod" then ["fulcio/prod/overlap.pem"]
    else []⟩

/-- Non-empty delegation graph none of whose patterns matches any of the
recognized usage patterns. -/
def mdNoMatch : TargetsMeta :=
  ⟨[], [⟨"other-role", ["other/**/*"]⟩], fun _ => []⟩

/-- Client that resolves the single target `a.pub` and has nothing
cached. -/
def clientOne : Client :=
  ⟨fun t => if t == "a.pub" then some ⟨"a.pub", 1⟩ else none, fun _ => none⟩

/-- Targets metadata listing the single top-level target `a.pub`. -/
def mdOne : TargetsMeta := ⟨["a.pub"], [], fun _ => []⟩

/-
Helper lemmas (shared; not tied to any single claim).
-/

lemma fileExists_writeFile_self (fs : FS) (p : FPath) (b : Bytes) :
    (fs.writeFile p b).fileExists p = true := by
  simp [FS.writeFile, FS.fileExists]

lemma fileExists_writeFile_mono (fs : FS) (p q : FPath) (b : Bytes)
    (h : fs.fileExists q = true) : (fs.writeFile p b).fileExists q = true := by
  simp [FS.writeFile, FS.fileExists] at h ⊢
  exact Or.inr h

lemma fileExists_foldl_writeFile (l : List String) (w : String → FPath)
    (r : String → Bytes) (fs : FS) (q : FPath) (h : fs.fileExists q = true) :
    (l.foldl (fun f t => f.writeFile (w t) (r t)) fs).fileExists q = true := by
  induction l generalizing fs with
  | nil => exact h
  | cons t ts ih => exact ih _ (fileExists_writeFile_mono _ _ _ _ h)

lemma prepare_fst_has_root (sha256hex : Bytes → String) (resource : String → Bytes)
    (tuf_dir : FPath) (fs : FS) :
    ((TrustUpdater._prepare_local_cache sha256hex resource tuf_dir fs).1).fileExists
      (tuf_dir ++ ["metadata", "root.json"]) = true := by
  unfold TrustUpdater._prepare_local_cache
  by_cases h : fs.fileExists (tuf_dir ++ ["metadata", "root.json"]) = true
  · simp [h]
  · simp only [Bool.not_eq_true] at h
    simp [h]
    exact fileExists_foldl_writeFile SIGSTORE_TARGETS
      (fun t => tuf_dir ++ ["targets", t]) resource _ _
      (fileExists_writeFile_self _ _ _)

lemma prepare_snd_eq_check (sha256hex : Bytes → String) (resource : String → Bytes)
    (tuf_dir : FPath) (fs : FS) :
    (TrustUpdater._prepare_local_cache sha256hex resource tuf_dir fs).2
      = rootDigestCheck sha256hex
          (TrustUpdater._prepare_local_cache sha256hex resource tuf_dir fs).1 := rfl

lemma fetch_all_targets_downloads_uncached (c : Client) (l : List String) :
    ∀ i ∈ (_fetch_all_targets c l).1, c.find_cached_target i = none := by
  induction l with
  | nil =>
    intro i hi
    simp [_fetch_all_targets] at hi
  | cons t rest ih =>
    intro i hi
    unfold _fetch_all_targets at hi
    cases hg : c.get_targetinfo t with
    | none =>
      simp [hg] at hi
    | some info =>
      simp only [hg] at hi
      cases hf : c.find_cached_target info with
      | some p =>
        simp only [hf] at hi
        exact ih i hi
      | none =>
        simp only [hf] at hi
        simp at hi
        rcases hi with rfl | hi
        · exact hf
        · exact ih i hi

/-
Claim theorems.
-/

/-- Claim C1: The claim states that for every cache root, `_prepare_local_cache`
digests the bundled root-of-trust document, terminates the process on a
digest mismatch with the pinned constant, and returns normally on a match.
On the code this fails: the check reads `root.json` through
`Store._read_binary`, which reads the fixed home `targets/` directory — a
directory into which `root.json` is never copied (the bundled root goes to
`metadata/root.json`, and `root.json` is not in SIGSTORE_TARGETS). On a
fresh machine with the default cache root, preparation therefore raises
FileNotFoundError for every hash function and every bundled resource
content — in particular even when the bundled document digest equals the
pinned constant. -/
theorem prepare_fresh_default_cache_raises_file_not_found
    (sha256hex : Bytes → String) (resource : String → Bytes) :
    (TrustUpdater._prepare_local_cache sha256hex resource sigstoreRootDir emptyFS).2
      = some PyError.fileNotFoundError := rfl

/-- Claim C3: `_should_update` returns true when no timestamp metadata file has
ever been cached; otherwise, on a parseable cached timestamp, it returns
true exactly when the expiry instant is at or before the current time and
false exactly when the expiry is strictly in the future. -/
theorem should_update_absent_and_expiry (now e : Nat) :
    TrustUpdater._should_update TimestampFile.absent now = Except.ok true
    ∧ (TrustUpdater._should_update (TimestampFile.valid e) now = Except.ok true ↔ e ≤ now)
    ∧ (TrustUpdater._should_update (TimestampFile.valid e) now = Except.ok false ↔ now < e) := by
  refine ⟨rfl, ?_, ?_⟩ <;>
    simp [TrustUpdater._should_update, is_expired, Nat.not_le]

/-- Claim C4: Whenever `_should_update` answers false (a cached, unexpired
timestamp exists), `update` returns immediately: no refresh call, no
downloads, no error — zero network operations and an unchanged local
cache. -/
theorem update_fresh_timestamp_no_network (c : Client) (ts : TimestampFile)
    (now : Nat) (md : TargetsMeta)
    (h : TrustUpdater._should_update ts now = Except.ok false) :
    TrustUpdater.update c ts now md = ⟨false, [], none⟩ := by
  unfold TrustUpdater.update
  rw [h]

/-- Witness for C4 at a concrete unexpired timestamp (expiry 10, now 3). -/
theorem update_fresh_timestamp_no_network_witness :
    TrustUpdater.update clientTriv (TimestampFile.valid 10) 3 mdTriv
      = ⟨false, [], none⟩ :=
  update_fresh_timestamp_no_network clientTriv (TimestampFile.valid 10) 3 mdTriv rfl

/-- Claim C5 counterexample: The claim states that a corrupt cached timestamp
makes `_should_update` return true rather than raise; on the code the
parse failure of `Metadata.from_file` propagates uncaught, so at the
concrete corrupt input the result is a raised deserialization error and
not the value true. -/
theorem should_update_corrupt_counterexample :
    TrustUpdater._should_update TimestampFile.corrupt 0
        = Except.error PyError.deserializationError
    ∧ TrustUpdater._should_update TimestampFile.corrupt 0 ≠ Except.ok true :=
  ⟨rfl, fun h => nomatch h⟩

/-- Claim C5 amended: For every current time, a corrupt cached timestamp makes
`_should_update` raise the deserialization error from parsing, rather than
return true. -/
theorem should_update_corrupt_raises (now : Nat) :
    TrustUpdater._should_update TimestampFile.corrupt now
      = Except.error PyError.deserializationError := rfl

/-- Claim C10: `is_created` is declared a classmethod whose only parameter is
`tuf_dir`, so every invocation through the class binds the class object to
`tuf_dir`: the zero-argument call reaches `Path(tuf_dir)` with a class
object and raises TypeError, and the one-argument call passes two
positional arguments to a one-parameter function and raises TypeError at
call time. No class invocation returns whether `metadata/timestamp.json`
exists, on any filesystem. -/
theorem is_created_class_invocation_type_error (fs : FS) (v : PyValue) :
    TrustUpdater.is_created [] fs = Except.error PyError.typeError
    ∧ TrustUpdater.is_created [v] fs = Except.error PyError.typeError :=
  ⟨rfl, rfl⟩

/-- Claim C2: The claim states that after a successful refresh, `update` fetches
exactly the targets reachable through delegated roles whose pattern
matches a recognized usage pattern, and no target outside those
delegations. On the code this fails at a concrete metadata state: with one
top-level target `unrelated.pub` outside every delegation and one
delegated role matching `fulcio/**/*` listing `fulcio/cert.pem`, `update`
downloads the undelegated top-level target and then raises AttributeError
at `targets_md.delegations` before examining any delegation, so the
delegated target is never fetched. -/
theorem update_fetches_undelegated_target_then_attribute_error :
    TrustUpdater.update clientDeleg TimestampFile.absent 0 mdDeleg
      = ⟨true, [⟨"unrelated.pub", 11⟩], some PyError.attributeError⟩
    ∧ (⟨"fulcio/cert.pem", 22⟩ : TargetInfo)
        ∉ (TrustUpdater.update clientDeleg TimestampFile.absent 0 mdDeleg).downloads := by
  exact ⟨by decide, by decide⟩

/-- Claim C6: The claim states that when the same identifier is listed by more
than one matching delegated role, the resolved set contains the entry from
the most specific delegation. On the code, at the concrete two-delegation
graph (broad `fulcio/**/*` and specific `fulcio/prod/*`, both listing
`fulcio/prod/overlap.pem`), `update` raises AttributeError at
`targets_md.delegations` before examining either delegation: the resolved
set is empty, so no entry — most specific or otherwise — is ever
selected. -/
theorem update_overlapping_delegations_resolve_nothing :
    TrustUpdater.update clientOverlap TimestampFile.absent 0 mdOverlap
      = ⟨true, [], some PyError.attributeError⟩ := by
  decide

/-- Claim C7: The claim states that a usage with no matching delegation resolves
to an empty set and completes without raising, even against a non-empty
delegation graph. On the code, against a concrete non-empty delegation
graph with no pattern matching any recognized usage, the usage loop raises
AttributeError at `targets_md.delegations` in its first iteration instead
of completing with an empty result. -/
theorem update_unmatched_usage_raises_attribute_error :
    TrustUpdater.update clientTriv TimestampFile.absent 0 mdNoMatch
      = ⟨true, [], some PyError.attributeError⟩
    ∧ (TrustUpdater.update clientTriv TimestampFile.absent 0 mdNoMatch).error ≠ none := by
  exact ⟨by decide, by decide⟩

/-- Claim C8: Preparation is idempotent. First part: whenever
`metadata/root.json` already exists under the cache root, a call to
`_prepare_local_cache` leaves the filesystem exactly as it was — no
directory creation and no copying. Second part: if a call on `fs`
succeeded and produced `fs1`, a subsequent call on `fs1` succeeds and
produces `fs1` again, so the on-disk contents after the second call equal
those after the first. -/
theorem prepare_local_cache_idempotent (sha256hex : Bytes → String)
    (resource : String → Bytes) (tuf_dir : FPath) (fs fs1 : FS) :
    (fs.fileExists (tuf_dir ++ ["metadata", "root.json"]) = true →
      (TrustUpdater._prepare_local_cache sha256hex resource tuf_dir fs).1 = fs)
    ∧ (TrustUpdater._prepare_local_cache sha256hex resource tuf_dir fs = (fs1, none) →
      TrustUpdater._prepare_local_cache sha256hex resource tuf_dir fs1 = (fs1, none)) := by
  constructor
  · intro h
    unfold TrustUpdater._prepare_local_cache
    simp [h]
  · intro hp
    have hroot : fs1.fileExists (tuf_dir ++ ["metadata", "root.json"]) = true := by
      have := prepare_fst_has_root sha256hex resource tuf_dir fs
      rw [hp] at this
      exact this
    have hchk : rootDigestCheck sha256hex fs1 = none := by
      have hc := prepare_snd_eq_check sha256hex resource tuf_dir fs
      rw [hp] at hc
      exact hc.symm
    unfold TrustUpdater._prepare_local_cache
    simp [hroot, hchk]

/-- Witness for C8: with the pinned-valued toy hash and a store already
holding `root.json` in both home directories, preparation on `fsWithRoot`
is a no-op and, having once succeeded with result `fsWithRoot`, succeeds
again with the same result. -/
theorem prepare_local_cache_idempotent_witness :
    (TrustUpdater._prepare_local_cache hashPinned resourceEmpty
        sigstoreRootDir fsWithRoot).1 = fsWithRoot
    ∧ TrustUpdater._prepare_local_cache hashPinned resourceEmpty
        sigstoreRootDir fsWithRoot = (fsWithRoot, none) :=
  ⟨(prepare_local_cache_idempotent hashPinned resourceEmpty sigstoreRootDir
      fsWithRoot fsWithRoot).1 (by decide),
   (prepare_local_cache_idempotent hashPinned resourceEmpty sigstoreRootDir
      fsWithRoot fsWithRoot).2 (by decide)⟩

/-- Claim C9: Every target downloaded by `update` had no cached copy: for each
resolved record the code asks `find_cached_target` first and calls
`download_target` only when that check returns nothing, so a target with a
cached copy is never re-downloaded. -/
theorem update_downloads_only_uncached (c : Client) (ts : TimestampFile)
    (now : Nat) (md : TargetsMeta) :
    ∀ i ∈ (TrustUpdater.update c ts now md).downloads,
      c.find_cached_target i = none := by
  intro i hi
  unfold TrustUpdater.update at hi
  cases hs : TrustUpdater._should_update ts now with
  | error e =>
    simp [hs] at hi
  | ok b =>
    cases b with
    | false => simp [hs] at hi
    | true =>
      simp only [hs] at hi
      cases he : (_fetch_all_targets c md.targets).2 with
      | none =>
        simp only [he] at hi
        exact fetch_all_targets_downloads_uncached c md.targets i hi
      | some err =>
        simp only [he] at hi
        exact fetch_all_targets_downloads_uncached c md.targets i hi

/-- Witness for C9 at a concrete run: the single downloaded target
`a.pub` indeed had no cached copy. -/
theorem update_downloads_only_uncached_witness :
    clientOne.find_cached_target ⟨"a.pub", 1⟩ = none :=
  update_downloads_only_uncached clientOne TimestampFile.absent 0 mdOne
    ⟨"a.pub", 1⟩ (by decide)

end Sigstore
